import Mathlib

/-!
Verification of `pkg/registry.go` from container-tag-exists.

The Go code is shallowly embedded: every function of the file becomes a
Lean function over an explicit `World` that supplies the process
environment, the HTTP transport and the JSON decoder.  Each operation
additionally returns the list of HTTP requests it issued, so that claims
about headers, endpoints and request counts can be stated.
-/

namespace Registry

/-- Raw bytes of an HTTP response body (abstract). -/
abbrev Body := String

/-- A Go `error` value, modelled by its message. -/
abbrev GoError := String

/-- One outbound HTTP request as built by `retrieve`: the method, the full
endpoint URL and the value added for the `Authorization` header. -/
structure Request where
  method : String
  endpoint : String
  auth : String
deriving DecidableEq, Repr

/-- The ambient world: process environment (`none` = variable unset),
the HTTP transport (`http.Client.Do` combined with `io.ReadAll`, returning
the status code and body or a transport error), and `json.Unmarshal` into
`tokenResponse` (returning the `token` field or a parse error). -/
structure World where
  env : String → Option String
  httpDo : Request → Except GoError (Int × Body)
  parseTokenJSON : Body → Except GoError String

/-- `os.Getenv`: the empty string when the variable is unset. -/
def osGetenv (w : World) (k : String) : String := (w.env k).getD ""

/-- UTF-8 bytes of one character (as in Go, strings are UTF-8 byte slices). -/
def utf8Bytes (c : Char) : List Nat :=
  let n := c.toNat
  if n < 0x80 then [n]
  else if n < 0x800 then
    [0xC0 ||| (n >>> 6), 0x80 ||| (n &&& 0x3F)]
  else if n < 0x10000 then
    [0xE0 ||| (n >>> 12), 0x80 ||| ((n >>> 6) &&& 0x3F), 0x80 ||| (n &&& 0x3F)]
  else
    [0xF0 ||| (n >>> 18), 0x80 ||| ((n >>> 12) &&& 0x3F),
     0x80 ||| ((n >>> 6) &&& 0x3F), 0x80 ||| (n &&& 0x3F)]

/-- The UTF-8 byte sequence of a string. -/
def strBytes (s : String) : List Nat := s.data.flatMap utf8Bytes

/-- The standard base64 alphabet. -/
def b64Alphabet : List Char :=
  "ABCDEFGHIJKLMNOPQRSTUVWXYZabcdefghijklmnopqrstuvwxyz0123456789+/".data

/-- The base64 digit for a 6-bit value. -/
def b64Char (n : Nat) : Char := b64Alphabet.getD n 'A'

/-- Standard base64 encoding of a byte sequence, with `=` padding
(`base64.StdEncoding.EncodeToString`). -/
def b64EncodeBytes : List Nat → List Char
  | [] => []
  | [a] => [b64Char (a >>> 2), b64Char ((a &&& 3) <<< 4), '=', '=']
  | [a, b] =>
      [b64Char (a >>> 2), b64Char (((a &&& 3) <<< 4) ||| (b >>> 4)),
       b64Char ((b &&& 15) <<< 2), '=']
  | a :: b :: c :: rest =>
      b64Char (a >>> 2) :: b64Char (((a &&& 3) <<< 4) ||| (b >>> 4)) ::
      b64Char (((b &&& 15) <<< 2) ||| (c >>> 6)) :: b64Char (c &&& 63) ::
      b64EncodeBytes rest

/-- `base64.StdEncoding.EncodeToString([]byte(s))`. -/
def base64Encode (s : String) : String := ⟨b64EncodeBytes (strBytes s)⟩

/-- The `RegistryClient` struct (the `HttpClient` field lives in `World`). -/
structure RegistryClient where
  RegistryName : String
  RegistryURL : String
  ImagePath : String
deriving DecidableEq, Repr

/-- `authAPI` instantiated: `https://%s/v2/auth?service=%s&scope=repository:%s:pull`. -/
def authEndpoint (r : RegistryClient) : String :=
  "https://" ++ r.RegistryURL ++ "/v2/auth?service=" ++ r.RegistryURL ++
    "&scope=repository:" ++ r.ImagePath ++ ":pull"

/-- `manifestAPI` instantiated: `https://%s/v2/%s/manifests/%s`. -/
def manifestEndpoint (r : RegistryClient) (tag : String) : String :=
  "https://" ++ r.RegistryURL ++ "/v2/" ++ r.ImagePath ++ "/manifests/" ++ tag

/-- `RegistryClient.retrieve`: build the request, add the `Authorization`
header, perform it and read the body.  Returns `(status, body, err)` as the
Go triple `(int, []byte, error)` (status `-1` and empty body on error), plus
the issued request. -/
def retrieve (w : World) (method endpoint auth : String) :
    (Int × Body × Option GoError) × List Request :=
  let req : Request := ⟨method, endpoint, auth⟩
  let result : Int × Body × Option GoError :=
    match w.httpDo req with
    | .error e => (-1, "", some e)
    | .ok (status, b) => (status, b, none)
  (result, [req])

/-- `RegistryClient.retrieveBearerToken`: GET the auth endpoint with
`Authorization: Basic {auth}`; on 200 decode the JSON `token` field. -/
def retrieveBearerToken (r : RegistryClient) (w : World) (auth : String) :
    (String × Option GoError) × List Request :=
  let res := retrieve w "GET" (authEndpoint r) ("Basic " ++ auth)
  let result : String × Option GoError :=
    match res.1 with
    | (_, _, some e) => ("", some e)
    | (status, body, none) =>
      if status ≠ 200 then
        ("", some ("unexpected response code " ++ toString status))
      else
        match w.parseTokenJSON body with
        | .error e => ("", some e)
        | .ok tok => (tok, none)
  (result, res.2)

/-- `RegistryClient.checkManifestForTag`: HEAD the manifest endpoint with
`Authorization: Bearer {bearer}` when a bearer token is supplied; 200 means
the tag exists, 404 means it does not, anything else is an error. -/
def checkManifestForTag (r : RegistryClient) (w : World) (bearer tag : String) :
    (Bool × Option GoError) × List Request :=
  let auth := if bearer ≠ "" then "Bearer " ++ bearer else ""
  let res := retrieve w "HEAD" (manifestEndpoint r tag) auth
  let result : Bool × Option GoError :=
    match res.1 with
    | (_, _, some e) => (false, some e)
    | (status, _, none) =>
      if status = 200 then (true, none)
      else if status = 404 then (false, none)
      else (false, some ("unexpected response registry API: " ++ toString status))
  (result, res.2)

/-- `RegistryClient.getAuthTokenFromCredentials`: base64 of
`{NAME}_USER:{NAME}_PASSWORD`, or an error when either is empty/unset. -/
def getAuthTokenFromCredentials (r : RegistryClient) (w : World) :
    String × Option GoError :=
  let user := osGetenv w (r.RegistryName ++ "_USER")
  let pass := osGetenv w (r.RegistryName ++ "_PASSWORD")
  if user = "" ∨ pass = "" then
    ("", some ("could not get credentials for " ++ r.RegistryName))
  else
    (base64Encode (user ++ ":" ++ pass), none)

/-- `RegistryClient.getBearerTokenFromAuthToken`: take `{NAME}_AUTH` or the
credential-derived auth token and exchange it for a bearer token. -/
def getBearerTokenFromAuthToken (r : RegistryClient) (w : World) :
    (String × Option GoError) × List Request :=
  let authToken := osGetenv w (r.RegistryName ++ "_AUTH")
  if authToken = "" then
    match getAuthTokenFromCredentials r w with
    | (_, some e) => (("", some e), [])
    | (t, none) =>
      if t = "" then
        (("", some ("could not get auth token for " ++ r.RegistryName)), [])
      else
        retrieveBearerToken r w t
  else
    retrieveBearerToken r w authToken

/-- `RegistryClient.getBearerToken`: use `{NAME}_TOKEN` directly when set,
otherwise exchange an auth token; on exchange failure fall back to
base64(`GITHUB_TOKEN`) exactly when the registry name is `GHCR_IO`; finally
reject an empty bearer token. -/
def getBearerToken (r : RegistryClient) (w : World) :
    (String × Option GoError) × List Request :=
  let bearerToken := osGetenv w (r.RegistryName ++ "_TOKEN")
  if bearerToken ≠ "" then
    ((bearerToken, none), [])
  else
    let res := getBearerTokenFromAuthToken r w
    let trace := res.2
    match res.1 with
    | (_, some e) =>
      if r.RegistryName ≠ "GHCR_IO" then
        (("", some e), trace)
      else
        let github_token := osGetenv w "GITHUB_TOKEN"
        if github_token = "" then
          (("", some e), trace)
        else
          let bt := base64Encode github_token
          if bt ≠ "" then ((bt, none), trace)
          else (("", some ("could not get a bearer token for " ++ r.RegistryName)), trace)
    | (bt, none) =>
      if bt ≠ "" then ((bt, none), trace)
      else (("", some ("could not get a bearer token for " ++ r.RegistryName)), trace)

/-- `RegistryClient.IsTagExist`: anonymous manifest check first; on its
error (only), acquire a bearer token and retry the manifest check. -/
def IsTagExist (r : RegistryClient) (w : World) (tag : String) :
    (Bool × Option GoError) × List Request :=
  let anon := checkManifestForTag r w "" tag
  match anon.1 with
  | (found, none) => ((found, none), anon.2)
  | (_, some _) =>
    let tok := getBearerToken r w
    match tok.1 with
    | (_, some e) => ((false, some e), anon.2 ++ tok.2)
    | (bearerToken, none) =>
      let second := checkManifestForTag r w bearerToken tag
      (second.1, anon.2 ++ tok.2 ++ second.2)

/-! ### Concrete fixtures used to exercise the model -/

/-- Environment built from an association list. -/
def envOf (l : List (String × String)) : String → Option String :=
  fun k => (l.find? (fun p => p.1 == k)).map Prod.snd

/-- A sample client. -/
def rcTest : RegistryClient := ⟨"REG", "reg.example.com", "proj/img"⟩

/-- A sample client for the GHCR special case. -/
def rcGhcr : RegistryClient := ⟨"GHCR_IO", "ghcr.io", "proj/img"⟩

/-- Every request answered with the given status and an empty body. -/
def wStatus (n : Int) : World :=
  { env := fun _ => none
    httpDo := fun _ => .ok (n, "")
    parseTokenJSON := fun _ => .ok "tok123" }

/-- The transport always fails; no environment variables are set. -/
def wDown : World :=
  { env := fun _ => none
    httpDo := fun _ => .error "connection refused"
    parseTokenJSON := fun _ => .ok "tok123" }

/-- Anonymous requests fail, authorized ones return 200; `REG_TOKEN=abc`. -/
def wTokenEnv : World :=
  { env := envOf [("REG_TOKEN", "abc")]
    httpDo := fun req => if req.auth = "" then .error "connection refused" else .ok (200, "")
    parseTokenJSON := fun _ => .ok "tok123" }

/-- Anonymous requests fail, others return 200; `REG_USER=u`, `REG_PASSWORD=p`. -/
def wUserPass : World :=
  { env := envOf [("REG_USER", "u"), ("REG_PASSWORD", "p")]
    httpDo := fun req => if req.auth = "" then .error "connection refused" else .ok (200, "")
    parseTokenJSON := fun _ => .ok "tok123" }

/-- Anonymous and token-exchange requests fail; `GITHUB_TOKEN=xyz`. -/
def wGhcr : World :=
  { env := envOf [("GITHUB_TOKEN", "xyz")]
    httpDo := fun req => if req.method = "GET" ∨ req.auth = "" then .error "connection refused" else .ok (200, "")
    parseTokenJSON := fun _ => .ok "tok123" }

/-- Anonymous requests fail; the exchange returns 200 but the decoded
`token` field is empty; `REG_AUTH=az`. -/
def wEmptyToken : World :=
  { env := envOf [("REG_AUTH", "az")]
    httpDo := fun req => if req.auth = "" then .error "connection refused" else .ok (200, "{}")
    parseTokenJSON := fun _ => .ok "" }

/-- Every request answered 200; `REG_TOKEN=abc` also set. -/
def wPublicTok : World :=
  { env := envOf [("REG_TOKEN", "abc")]
    httpDo := fun _ => .ok (200, "")
    parseTokenJSON := fun _ => .ok "tok123" }

/-- `REG_TOKEN` present but empty, credentials set; anonymous requests fail. -/
def wEmptyVar : World :=
  { env := envOf [("REG_TOKEN", ""), ("REG_USER", "u"), ("REG_PASSWORD", "p")]
    httpDo := fun req => if req.auth = "" then .error "connection refused" else .ok (200, "")
    parseTokenJSON := fun _ => .ok "tok123" }

/-- `w` with the variable `k0` removed from the environment. -/
def wUnset (w : World) (k0 : String) : World :=
  { w with env := fun k => if k = k0 then none else w.env k }

/-! ### Helper lemmas -/

/-- Each UTF-8 character encoding is non-empty. -/
theorem utf8Bytes_ne_nil (c : Char) : utf8Bytes c ≠ [] := by
  unfold utf8Bytes
  dsimp only
  split <;> [skip; split] <;> [simp; skip; split] <;> simp

/-- The UTF-8 encoding of a non-empty string is non-empty. -/
theorem strBytes_ne_nil (s : String) (h : s ≠ "") : strBytes s ≠ [] := by
  unfold strBytes
  cases hd : s.data with
  | nil =>
    exact absurd (by cases s; simpa using congrArg String.mk hd) h
  | cons c cs =>
    rw [List.flatMap_cons]
    intro habs
    exact utf8Bytes_ne_nil c (List.append_eq_nil.mp habs).1

/-- Base64 of a non-empty byte sequence is non-empty. -/
theorem b64EncodeBytes_ne_nil (l : List Nat) (h : l ≠ []) : b64EncodeBytes l ≠ [] := by
  unfold b64EncodeBytes
  match l with
  | [] => exact absurd rfl h
  | [a] => simp
  | [a, b] => simp
  | a :: b :: c :: rest => simp

/-- Base64 of a non-empty string is non-empty. -/
theorem base64Encode_ne_empty (s : String) (h : s ≠ "") : base64Encode s ≠ "" := by
  unfold base64Encode
  intro habs
  have : b64EncodeBytes (strBytes s) = [] := by
    simpa [String.ext_iff] using habs
  exact b64EncodeBytes_ne_nil (strBytes s) (strBytes_ne_nil s h) this

/-- A string containing a literal colon separator is never empty. -/
theorem append_colon_ne_empty (u p : String) : u ++ ":" ++ p ≠ "" := by
  intro h
  have h2 := congrArg String.length h
  simp [String.length_append] at h2
  exact absurd h2.1.2 (by decide)

/-- The manifest check issues exactly its one HEAD request. -/
theorem checkManifestForTag_trace (r : RegistryClient) (w : World) (bearer tag : String) :
    (checkManifestForTag r w bearer tag).2 =
      [⟨"HEAD", manifestEndpoint r tag, if bearer ≠ "" then "Bearer " ++ bearer else ""⟩] := rfl

/-- The token exchange issues exactly its one GET request. -/
theorem retrieveBearerToken_trace (r : RegistryClient) (w : World) (auth : String) :
    (retrieveBearerToken r w auth).2 = [⟨"GET", authEndpoint r, "Basic " ++ auth⟩] := rfl

/-- Auth-token-based acquisition performs at most one request, a GET. -/
theorem getBearerTokenFromAuthToken_trace (r : RegistryClient) (w : World) :
    (getBearerTokenFromAuthToken r w).2.length ≤ 1 ∧
    ∀ q ∈ (getBearerTokenFromAuthToken r w).2, q.method = "GET" := by
  have hone : ∀ a : String, (retrieveBearerToken r w a).2.length ≤ 1 ∧
      ∀ q ∈ (retrieveBearerToken r w a).2, q.method = "GET" := by
    intro a
    rw [retrieveBearerToken_trace]
    simp
  by_cases ha : osGetenv w (r.RegistryName ++ "_AUTH") = ""
  · rcases hcred : getAuthTokenFromCredentials r w with ⟨t, terr⟩
    cases terr with
    | some e =>
      simp only [getBearerTokenFromAuthToken, ha, hcred]
      rw [if_pos trivial]
      simp
    | none =>
      by_cases ht : t = ""
      · simp only [getBearerTokenFromAuthToken, ha, hcred]
        rw [if_pos trivial, if_pos ht]
        simp
      · simp only [getBearerTokenFromAuthToken, ha, hcred]
        rw [if_pos trivial, if_neg ht]
        exact hone t
  · simp only [getBearerTokenFromAuthToken]
    rw [if_neg ha]
    exact hone _

/-- With `{NAME}_TOKEN` non-empty, acquisition is request-free. -/
theorem getBearerToken_env_token (r : RegistryClient) (w : World)
    (h : osGetenv w (r.RegistryName ++ "_TOKEN") ≠ "") :
    getBearerToken r w = ((osGetenv w (r.RegistryName ++ "_TOKEN"), none), []) := by
  simp only [getBearerToken]
  rw [if_pos h]

/-- Bearer-token acquisition performs at most one request, a GET. -/
theorem getBearerToken_trace (r : RegistryClient) (w : World) :
    (getBearerToken r w).2.length ≤ 1 ∧
    ∀ q ∈ (getBearerToken r w).2, q.method = "GET" := by
  have hni : ¬(("" : String) ≠ "") := by simp
  have hmain := getBearerTokenFromAuthToken_trace r w
  by_cases htok : osGetenv w (r.RegistryName ++ "_TOKEN") = ""
  · rcases hx : getBearerTokenFromAuthToken r w with ⟨⟨bt0, xerr⟩, xtr⟩
    rw [hx] at hmain
    simp only [getBearerToken]
    rw [htok, if_neg hni, hx]
    cases xerr with
    | none =>
      simp only [ne_eq]
      by_cases hb0 : bt0 = ""
      · rw [if_neg (not_not_intro hb0)]
        exact hmain
      · rw [if_pos hb0]
        exact hmain
    | some e =>
      simp only [ne_eq]
      by_cases hr : r.RegistryName = "GHCR_IO"
      · rw [if_neg (not_not_intro hr)]
        by_cases hgh : osGetenv w "GITHUB_TOKEN" = ""
        · rw [if_pos hgh]
          exact hmain
        · rw [if_neg hgh]
          by_cases hbb : base64Encode (osGetenv w "GITHUB_TOKEN") = ""
          · rw [if_neg (not_not_intro hbb)]
            exact hmain
          · rw [if_pos hbb]
            exact hmain
      · rw [if_pos hr]
        exact hmain
  · rw [getBearerToken_env_token r w htok]
    simp

/-- Two worlds whose environments agree through `os.Getenv` and whose
transports and decoders agree are indistinguishable to the client. -/
theorem world_congr (r : RegistryClient) (w1 w2 : World) (tag : String)
    (henv : ∀ k, osGetenv w1 k = osGetenv w2 k)
    (hhttp : w1.httpDo = w2.httpDo)
    (hparse : w1.parseTokenJSON = w2.parseTokenJSON) :
    IsTagExist r w1 tag = IsTagExist r w2 tag ∧
    getBearerToken r w1 = getBearerToken r w2 := by
  have hret : ∀ m e a, retrieve w1 m e a = retrieve w2 m e a := by
    intro m e a
    unfold retrieve
    rw [hhttp]
  have hrbt : ∀ a, retrieveBearerToken r w1 a = retrieveBearerToken r w2 a := by
    intro a
    simp only [retrieveBearerToken, hret, hparse]
  have hcheck : ∀ b t, checkManifestForTag r w1 b t = checkManifestForTag r w2 b t := by
    intro b t
    simp only [checkManifestForTag, hret]
  have hcred : getAuthTokenFromCredentials r w1 = getAuthTokenFromCredentials r w2 := by
    simp only [getAuthTokenFromCredentials, henv]
  have hgbfa : getBearerTokenFromAuthToken r w1 = getBearerTokenFromAuthToken r w2 := by
    simp only [getBearerTokenFromAuthToken, henv, hcred, hrbt]
  have hgbt : getBearerToken r w1 = getBearerToken r w2 := by
    simp only [getBearerToken, henv, hgbfa]
  refine ⟨?_, hgbt⟩
  simp only [IsTagExist, hcheck, hgbt]

/-! ### Claim theorems -/

/-- C1: whenever the anonymous manifest check (empty credentials) returns
without error, `IsTagExist` returns that check's boolean result with no
error, and its HTTP traffic is exactly the single anonymous check — no
token acquisition and no further manifest check — regardless of whether
the result was found (200) or not found (404). -/
theorem C1_anonymous_short_circuit (r : RegistryClient) (w : World) (tag : String)
    (found : Bool) (h : (checkManifestForTag r w "" tag).1 = (found, none)) :
    IsTagExist r w tag = ((found, none), (checkManifestForTag r w "" tag).2) ∧
    (IsTagExist r w tag).2.length = 1 := by
  constructor
  · simp only [IsTagExist, h]
  · simp only [IsTagExist, h]
    rfl

/-- Witness for C1: a world whose anonymous check answers 200. -/
theorem C1_anonymous_short_circuit_witness :
    (checkManifestForTag rcTest (wStatus 200) "" "v1").1 = (true, none) ∧
    (IsTagExist rcTest (wStatus 200) "v1" =
        ((true, none), (checkManifestForTag rcTest (wStatus 200) "" "v1").2) ∧
     (IsTagExist rcTest (wStatus 200) "v1").2.length = 1) :=
  ⟨by rfl, C1_anonymous_short_circuit rcTest (wStatus 200) "v1" true (by rfl)⟩

/-- C2: for every bearer token and tag, `checkManifestForTag` maps the
response status exactly: 200 to (exists, no error), 404 to (does not
exist, no error), and any other status to (false, error naming the
unexpected status code). -/
theorem C2_checkManifest_status_mapping (r : RegistryClient) (w : World)
    (bearer tag : String) (status : Int) (body : Body)
    (h : w.httpDo ⟨"HEAD", manifestEndpoint r tag,
          if bearer ≠ "" then "Bearer " ++ bearer else ""⟩ = .ok (status, body)) :
    (checkManifestForTag r w bearer tag).1 =
      if status = 200 then (true, none)
      else if status = 404 then (false, none)
      else (false, some ("unexpected response registry API: " ++ toString status)) := by
  simp only [checkManifestForTag, retrieve, h]

/-- Witness for C2: an unexpected status 500 yields the error result. -/
theorem C2_checkManifest_status_mapping_witness :
    (wStatus 500).httpDo ⟨"HEAD", manifestEndpoint rcTest "v1",
        if "b" ≠ "" then "Bearer " ++ "b" else ""⟩ = .ok (500, "") ∧
    (checkManifestForTag rcTest (wStatus 500) "b" "v1").1 =
      (if (500 : Int) = 200 then (true, none)
       else if (500 : Int) = 404 then (false, none)
       else (false, some ("unexpected response registry API: " ++ toString (500 : Int)))) :=
  ⟨by rfl, C2_checkManifest_status_mapping rcTest (wStatus 500) "b" "v1" 500 "" (by rfl)⟩

/-- C3: when the anonymous manifest check fails, its error is swallowed:
`IsTagExist` goes on to bearer-token acquisition, returns `(false, e2)`
when acquisition fails with `e2`, and otherwise returns exactly the result
of the authenticated manifest check. -/
theorem C3_anonymous_error_swallowed (r : RegistryClient) (w : World) (tag e : String)
    (h : (checkManifestForTag r w "" tag).1.2 = some e) :
    ((getBearerToken r w).1.2 = none →
      (IsTagExist r w tag).1 = (checkManifestForTag r w (getBearerToken r w).1.1 tag).1) ∧
    (∀ e2, (getBearerToken r w).1.2 = some e2 → (IsTagExist r w tag).1 = (false, some e2)) := by
  rcases hc : checkManifestForTag r w "" tag with ⟨⟨b, err⟩, tr⟩
  rw [hc] at h
  dsimp only at h
  subst h
  constructor
  · intro hn
    rcases hg : getBearerToken r w with ⟨⟨bt, gerr⟩, gtr⟩
    rw [hg] at hn
    dsimp only at hn
    subst hn
    simp [IsTagExist, hc, hg]
  · intro e2 h2
    rcases hg : getBearerToken r w with ⟨⟨bt, gerr⟩, gtr⟩
    rw [hg] at h2
    dsimp only at h2
    subst h2
    simp [IsTagExist, hc, hg]

/-- Witness for C3: transport down and no credentials configured. -/
theorem C3_anonymous_error_swallowed_witness :
    (checkManifestForTag rcTest wDown "" "v1").1.2 = some "connection refused" ∧
    (IsTagExist rcTest wDown "v1").1 = (false, some "could not get credentials for REG") :=
  ⟨by rfl, (C3_anonymous_error_swallowed rcTest wDown "v1" "connection refused" (by rfl)).2
      "could not get credentials for REG" (by rfl)⟩

/-- C4: a non-empty `{NAME}_TOKEN` is returned directly by bearer-token
acquisition with no error and no HTTP request, and the manifest retry then
carries `Authorization: Bearer {token}` verbatim. -/
theorem C4_env_token_used_directly (r : RegistryClient) (w : World) (tag tok e : String)
    (htok : osGetenv w (r.RegistryName ++ "_TOKEN") = tok) (hne : tok ≠ "")
    (hanon : (checkManifestForTag r w "" tag).1.2 = some e) :
    getBearerToken r w = ((tok, none), []) ∧
    IsTagExist r w tag =
      ((checkManifestForTag r w tok tag).1,
        (checkManifestForTag r w "" tag).2 ++ (checkManifestForTag r w tok tag).2) ∧
    (checkManifestForTag r w tok tag).2 =
      [⟨"HEAD", manifestEndpoint r tag, "Bearer " ++ tok⟩] := by
  have hb : getBearerToken r w = ((tok, none), []) := by
    simp only [getBearerToken, htok]
    rw [if_pos hne]
  refine ⟨hb, ?_, ?_⟩
  · rcases hc : checkManifestForTag r w "" tag with ⟨⟨b, err⟩, tr⟩
    rw [hc] at hanon
    dsimp only at hanon
    subst hanon
    simp [IsTagExist, hc, hb]
  · have htr : (checkManifestForTag r w tok tag).2 =
        [⟨"HEAD", manifestEndpoint r tag, if tok ≠ "" then "Bearer " ++ tok else ""⟩] := rfl
    rw [htr, if_pos hne]

/-- C5: with no `{NAME}_TOKEN` supplied, the auth token used for the
exchange is `{NAME}_AUTH` when non-empty; otherwise it is base64 of
`user:pass` from `{NAME}_USER` and `{NAME}_PASSWORD`, and when either of
those is empty the acquisition fails with an error naming the registry.
For `USER=u`, `PASSWORD=p` the derived token is exactly base64 of `u:p`. -/
theorem C5_auth_token_cascade (r : RegistryClient) (w : World) (a u p : String)
    (htok : osGetenv w (r.RegistryName ++ "_TOKEN") = "")
    (ha : osGetenv w (r.RegistryName ++ "_AUTH") = a)
    (hu : osGetenv w (r.RegistryName ++ "_USER") = u)
    (hp : osGetenv w (r.RegistryName ++ "_PASSWORD") = p) :
    (a ≠ "" → getBearerTokenFromAuthToken r w = retrieveBearerToken r w a) ∧
    (a = "" → u ≠ "" → p ≠ "" →
      getBearerTokenFromAuthToken r w =
        retrieveBearerToken r w (base64Encode (u ++ ":" ++ p))) ∧
    (a = "" → (u = "" ∨ p = "") →
      getBearerTokenFromAuthToken r w =
        (("", some ("could not get credentials for " ++ r.RegistryName)), [])) ∧
    base64Encode ("u" ++ ":" ++ "p") = "dTpw" := by
  refine ⟨?_, ?_, ?_, by rfl⟩
  · intro hane
    simp only [getBearerTokenFromAuthToken, ha]
    rw [if_neg hane]
  · intro ha0 hu0 hp0
    subst ha0
    have hb := base64Encode_ne_empty (u ++ ":" ++ p) (append_colon_ne_empty u p)
    simp only [getBearerTokenFromAuthToken, getAuthTokenFromCredentials, ha, hu, hp]
    rw [if_pos trivial, if_neg (not_or.mpr ⟨hu0, hp0⟩)]
    dsimp only
    rw [if_neg hb]
  · intro ha0 hor
    subst ha0
    simp only [getBearerTokenFromAuthToken, getAuthTokenFromCredentials, ha, hu, hp]
    rw [if_pos trivial, if_pos hor]

/-- Witness for C5: `REG_USER=u`, `REG_PASSWORD=p`, nothing else set. -/
theorem C5_auth_token_cascade_witness :
    osGetenv wUserPass ("REG" ++ "_TOKEN") = "" ∧
    osGetenv wUserPass ("REG" ++ "_AUTH") = "" ∧
    osGetenv wUserPass ("REG" ++ "_USER") = "u" ∧
    osGetenv wUserPass ("REG" ++ "_PASSWORD") = "p" ∧
    getBearerTokenFromAuthToken rcTest wUserPass =
      retrieveBearerToken rcTest wUserPass (base64Encode ("u" ++ ":" ++ "p")) :=
  ⟨by rfl, by rfl, by rfl, by rfl,
    (C5_auth_token_cascade rcTest wUserPass "" "u" "p" (by rfl) (by rfl) (by rfl)
      (by rfl)).2.1 rfl (by decide) (by decide)⟩

/-- C6: when the token exchange fails with error `e`, registry `GHCR_IO`
falls back to base64 of a non-empty `GITHUB_TOKEN` as the bearer token
without any further request; with `GITHUB_TOKEN` empty/unset the original
exchange error is returned, and any other registry returns `e` unchanged. -/
theorem C6_ghcr_github_token_fallback (r : RegistryClient) (w : World) (e g : String)
    (htok : osGetenv w (r.RegistryName ++ "_TOKEN") = "")
    (hex : (getBearerTokenFromAuthToken r w).1.2 = some e)
    (hg : osGetenv w "GITHUB_TOKEN" = g) :
    (r.RegistryName = "GHCR_IO" → g ≠ "" →
      (getBearerToken r w).1 = (base64Encode g, none) ∧
      (getBearerToken r w).2 = (getBearerTokenFromAuthToken r w).2) ∧
    (r.RegistryName = "GHCR_IO" → g = "" → (getBearerToken r w).1 = ("", some e)) ∧
    (r.RegistryName ≠ "GHCR_IO" → (getBearerToken r w).1 = ("", some e)) := by
  rcases hx : getBearerTokenFromAuthToken r w with ⟨⟨bt, xerr⟩, xtr⟩
  rw [hx] at hex
  dsimp only at hex
  subst hex
  have hni : ¬(("" : String) ≠ "") := by simp
  refine ⟨?_, ?_, ?_⟩
  · intro hn hgne
    have hb := base64Encode_ne_empty g hgne
    have key : getBearerToken r w = ((base64Encode g, none), xtr) := by
      simp only [getBearerToken, htok, hx]
      rw [if_neg hni, if_neg (not_not_intro hn), hg, if_neg hgne, if_pos hb]
    exact ⟨by rw [key], by simp only [key, hx]⟩
  · intro hn hg0
    subst hg0
    have key : getBearerToken r w = (("", some e), xtr) := by
      simp only [getBearerToken, htok, hx]
      rw [if_neg hni, if_neg (not_not_intro hn), hg, if_pos rfl]
    rw [key]
  · intro hne
    have key : getBearerToken r w = (("", some e), xtr) := by
      simp only [getBearerToken, htok, hx]
      rw [if_neg hni, if_pos hne]
    rw [key]

/-- Witness for C6: `GHCR_IO` with a failing exchange and `GITHUB_TOKEN=xyz`. -/
theorem C6_ghcr_github_token_fallback_witness :
    osGetenv wGhcr ("GHCR_IO" ++ "_TOKEN") = "" ∧
    (getBearerTokenFromAuthToken rcGhcr wGhcr).1.2 =
      some "could not get credentials for GHCR_IO" ∧
    osGetenv wGhcr "GITHUB_TOKEN" = "xyz" ∧
    ((getBearerToken rcGhcr wGhcr).1 = (base64Encode "xyz", none) ∧
     (getBearerToken rcGhcr wGhcr).2 = (getBearerTokenFromAuthToken rcGhcr wGhcr).2) :=
  ⟨by rfl, by rfl, by rfl,
    (C6_ghcr_github_token_fallback rcGhcr wGhcr "could not get credentials for GHCR_IO"
      "xyz" (by rfl) (by rfl) (by rfl)).1 (by rfl) (by decide)⟩

/-- C7: the token exchange issues a GET to
`/v2/auth?service={registryURL}&scope=repository:{imagePath}:pull` with
`Authorization: Basic {authToken}`; on HTTP 200 it returns the parsed
`token` field, a JSON parse failure is propagated, and any other status
yields an error containing the numeric status code. -/
theorem C7_token_exchange_request_and_statuses (r : RegistryClient) (w : World)
    (auth : String) (status : Int) (body : Body) (tok e : String) :
    (retrieveBearerToken r w auth).2 =
      [⟨"GET",
        "https://" ++ r.RegistryURL ++ "/v2/auth?service=" ++ r.RegistryURL ++
          "&scope=repository:" ++ r.ImagePath ++ ":pull",
        "Basic " ++ auth⟩] ∧
    (w.httpDo ⟨"GET", authEndpoint r, "Basic " ++ auth⟩ = .ok (status, body) →
      ((status = 200 → w.parseTokenJSON body = .ok tok →
          (retrieveBearerToken r w auth).1 = (tok, none)) ∧
       (status = 200 → w.parseTokenJSON body = .error e →
          (retrieveBearerToken r w auth).1 = ("", some e)) ∧
       (status ≠ 200 →
          (retrieveBearerToken r w auth).1 =
            ("", some ("unexpected response code " ++ toString status))))) := by
  refine ⟨rfl, ?_⟩
  intro hh
  refine ⟨?_, ?_, ?_⟩
  · intro h200 hp
    simp only [retrieveBearerToken, retrieve, hh]
    rw [if_neg (not_not_intro h200), hp]
  · intro h200 hp
    simp only [retrieveBearerToken, retrieve, hh]
    rw [if_neg (not_not_intro h200), hp]
  · intro hne
    simp only [retrieveBearerToken, retrieve, hh]
    rw [if_pos hne]

/-- Witness for C7: a 200 exchange whose body decodes to `tok123`. -/
theorem C7_token_exchange_request_and_statuses_witness :
    (wStatus 200).httpDo ⟨"GET", authEndpoint rcTest, "Basic " ++ "az"⟩ = .ok (200, "") ∧
    (200 : Int) = 200 ∧
    (wStatus 200).parseTokenJSON "" = .ok "tok123" ∧
    (retrieveBearerToken rcTest (wStatus 200) "az").1 = ("tok123", none) :=
  ⟨by rfl, rfl, by rfl,
    ((C7_token_exchange_request_and_statuses rcTest (wStatus 200) "az" 200 "" "tok123"
      "unused").2 (by rfl)).1 rfl (by rfl)⟩

/-- C8: bearer-token acquisition never succeeds with an empty token: a
no-error return carries a non-empty string, and in particular an exchange
answering 200 with an empty decoded `token` field ends in an error. -/
theorem C8_bearer_token_nonempty (r : RegistryClient) (w : World) (bt : String)
    (h : (getBearerToken r w).1 = (bt, none)) :
    bt ≠ "" ∧
    (getBearerToken rcTest wEmptyToken).1 =
      ("", some "could not get a bearer token for REG") := by
  refine ⟨?_, by rfl⟩
  have hni : ¬(("" : String) ≠ "") := by simp
  simp only [getBearerToken] at h
  by_cases htok : osGetenv w (r.RegistryName ++ "_TOKEN") = ""
  · rw [htok, if_neg hni] at h
    rcases hx : getBearerTokenFromAuthToken r w with ⟨⟨bt0, xerr⟩, xtr⟩
    rw [hx] at h
    cases xerr with
    | none =>
      simp only [ne_eq] at h
      by_cases hb0 : bt0 = ""
      · rw [if_neg (not_not_intro hb0)] at h
        simp at h
      · rw [if_pos hb0] at h
        simp at h
        subst h
        exact hb0
    | some e =>
      simp only [ne_eq] at h
      by_cases hr : r.RegistryName = "GHCR_IO"
      · rw [if_neg (not_not_intro hr)] at h
        by_cases hgh : osGetenv w "GITHUB_TOKEN" = ""
        · rw [if_pos hgh] at h
          simp at h
        · rw [if_neg hgh] at h
          have hbb := base64Encode_ne_empty _ hgh
          rw [if_pos hbb] at h
          simp at h
          subst h
          exact hbb
      · rw [if_pos hr] at h
        simp at h
  · rw [if_pos htok] at h
    simp at h
    subst h
    exact htok

/-- Witness for C8: a successful acquisition from `REG_TOKEN=abc`. -/
theorem C8_bearer_token_nonempty_witness :
    (getBearerToken rcTest wTokenEnv).1 = ("abc", none) ∧
    (("abc" : String) ≠ "" ∧
     (getBearerToken rcTest wEmptyToken).1 =
       ("", some "could not get a bearer token for REG")) :=
  ⟨by rfl, C8_bearer_token_nonempty rcTest wTokenEnv "abc" (by rfl)⟩

/-- Witness for C4: `REG_TOKEN=abc` with the anonymous request refused. -/
theorem C4_env_token_used_directly_witness :
    osGetenv wTokenEnv ("REG" ++ "_TOKEN") = "abc" ∧
    (checkManifestForTag rcTest wTokenEnv "" "v1").1.2 = some "connection refused" ∧
    (getBearerToken rcTest wTokenEnv = (("abc", none), []) ∧
     IsTagExist rcTest wTokenEnv "v1" =
       ((checkManifestForTag rcTest wTokenEnv "abc" "v1").1,
         (checkManifestForTag rcTest wTokenEnv "" "v1").2 ++
           (checkManifestForTag rcTest wTokenEnv "abc" "v1").2) ∧
     (checkManifestForTag rcTest wTokenEnv "abc" "v1").2 =
       [⟨"HEAD", manifestEndpoint rcTest "v1", "Bearer " ++ "abc"⟩]) :=
  ⟨by rfl, by rfl,
    C4_env_token_used_directly rcTest wTokenEnv "v1" "abc" "connection refused"
      (by rfl) (by decide) (by rfl)⟩

/-- C9: `IsTagExist` issues at most 3 HTTP requests, at most one of which
is a GET (the token exchange); exactly 1 request when the anonymous check
returns without error; and when `{NAME}_TOKEN` supplies the bearer token
every request is a manifest HEAD (the exchange is skipped). -/
theorem C9_request_budget (r : RegistryClient) (w : World) (tag : String) :
    (IsTagExist r w tag).2.length ≤ 3 ∧
    List.countP (fun q => q.method == "GET") (IsTagExist r w tag).2 ≤ 1 ∧
    ((checkManifestForTag r w "" tag).1.2 = none → (IsTagExist r w tag).2.length = 1) ∧
    (osGetenv w (r.RegistryName ++ "_TOKEN") ≠ "" →
      ∀ q ∈ (IsTagExist r w tag).2, q.method = "HEAD") := by
  have hgt := getBearerToken_trace r w
  rcases hc : checkManifestForTag r w "" tag with ⟨⟨b, err⟩, tr⟩
  have htr : tr = [⟨"HEAD", manifestEndpoint r tag, ""⟩] := by
    have h0 := checkManifestForTag_trace r w "" tag
    rw [hc] at h0
    simpa using h0
  cases err with
  | none =>
    have hI : IsTagExist r w tag = ((b, none), tr) := by
      simp only [IsTagExist, hc]
    rw [hI, htr]
    refine ⟨by simp, by simp [List.countP_cons], fun _ => by simp, fun _ => by simp⟩
  | some e =>
    rcases hg : getBearerToken r w with ⟨⟨bt2, gerr⟩, gtr⟩
    rw [hg] at hgt
    dsimp only at hgt
    obtain ⟨hglen, hgGET⟩ := hgt
    cases gerr with
    | some e2 =>
      have hI : IsTagExist r w tag = ((false, some e2), tr ++ gtr) := by
        simp only [IsTagExist, hc, hg]
      rw [hI]
      dsimp only
      refine ⟨?_, ?_, fun hcon => by simp at hcon, ?_⟩
      · simp [htr]
        omega
      · rw [List.countP_append, htr]
        have h1 : List.countP (fun q => q.method == "GET")
            [(⟨"HEAD", manifestEndpoint r tag, ""⟩ : Request)] = 0 := by
          simp [List.countP_cons]
        have h2 := List.countP_le_length (l := gtr) (fun q => q.method == "GET")
        omega
      · intro htokne
        have hToken := getBearerToken_env_token r w htokne
        rw [hg] at hToken
        have hcontra := congrArg (fun p => p.1.2) hToken
        simp at hcontra
    | none =>
      rcases hc2 : checkManifestForTag r w bt2 tag with ⟨res2, tr2⟩
      have htr2 : tr2 = [⟨"HEAD", manifestEndpoint r tag,
          if bt2 ≠ "" then "Bearer " ++ bt2 else ""⟩] := by
        have h0 := checkManifestForTag_trace r w bt2 tag
        rw [hc2] at h0
        simpa using h0
      have hI : IsTagExist r w tag = (res2, tr ++ gtr ++ tr2) := by
        simp only [IsTagExist, hc, hg, hc2]
      rw [hI]
      dsimp only
      refine ⟨?_, ?_, fun hcon => by simp at hcon, ?_⟩
      · simp [htr, htr2]
        omega
      · rw [List.countP_append, List.countP_append, htr, htr2]
        have h1 : List.countP (fun q => q.method == "GET")
            [(⟨"HEAD", manifestEndpoint r tag, ""⟩ : Request)] = 0 := by
          simp [List.countP_cons]
        have h2 : List.countP (fun q => q.method == "GET")
            [(⟨"HEAD", manifestEndpoint r tag,
                if bt2 ≠ "" then "Bearer " ++ bt2 else ""⟩ : Request)] = 0 := by
          simp [List.countP_cons]
        have h3 := List.countP_le_length (l := gtr) (fun q => q.method == "GET")
        omega
      · intro htokne
        have hToken := getBearerToken_env_token r w htokne
        rw [hg] at hToken
        have hgtr : gtr = [] := congrArg Prod.snd hToken
        intro q hq
        rw [htr, hgtr, htr2] at hq
        simp at hq
        rcases hq with h | h <;> subst h <;> rfl

/-- Witness for C9: a public image with `REG_TOKEN` also set. -/
theorem C9_request_budget_witness :
    ((IsTagExist rcTest wPublicTok "v1").2.length ≤ 3 ∧
     List.countP (fun q => q.method == "GET") (IsTagExist rcTest wPublicTok "v1").2 ≤ 1) ∧
    ((checkManifestForTag rcTest wPublicTok "" "v1").1.2 = none ∧
     (IsTagExist rcTest wPublicTok "v1").2.length = 1) ∧
    (osGetenv wPublicTok ("REG" ++ "_TOKEN") ≠ "" ∧
     ∀ q ∈ (IsTagExist rcTest wPublicTok "v1").2, q.method = "HEAD") :=
  ⟨⟨(C9_request_budget rcTest wPublicTok "v1").1,
    (C9_request_budget rcTest wPublicTok "v1").2.1⟩,
   ⟨by rfl, (C9_request_budget rcTest wPublicTok "v1").2.2.1 (by rfl)⟩,
   ⟨by decide, (C9_request_budget rcTest wPublicTok "v1").2.2.2 (by decide)⟩⟩

/-- C10: an environment variable set to the empty string behaves exactly
like an unset one, throughout the credential cascade and `IsTagExist`. -/
theorem C10_empty_env_equals_unset (r : RegistryClient) (w : World) (tag k0 : String)
    (hk : w.env k0 = some "") :
    IsTagExist r (wUnset w k0) tag = IsTagExist r w tag ∧
    getBearerToken r (wUnset w k0) = getBearerToken r w := by
  apply world_congr
  · intro k
    unfold osGetenv wUnset
    dsimp only
    by_cases hkk : k = k0
    · subst hkk
      rw [if_pos rfl, hk]
      rfl
    · rw [if_neg hkk]
  · rfl
  · rfl

/-- Witness for C10: `REG_TOKEN` set to the empty string. -/
theorem C10_empty_env_equals_unset_witness :
    wEmptyVar.env "REG_TOKEN" = some "" ∧
    (IsTagExist rcTest (wUnset wEmptyVar "REG_TOKEN") "v1" =
        IsTagExist rcTest wEmptyVar "v1" ∧
     getBearerToken rcTest (wUnset wEmptyVar "REG_TOKEN") =
        getBearerToken rcTest wEmptyVar) :=
  ⟨by rfl, C10_empty_env_equals_unset rcTest wEmptyVar "v1" "REG_TOKEN" (by rfl)⟩

end Registry
